import Mathlib

/-!
Shallow embedding of drivers/video/tegra/host/nvhost_syncpt.c, the Tegra
graphics-host syncpoint manager, together with proofs about its
wraparound comparison, wait/timeout protocol, increment operations and
stale-wait checking.

External collaborators (hardware register transport, power gate,
interrupt wake dispatcher, buffer patcher) are represented by oracle
inputs and by an event trace that records, in order, every collaborator
call the embedded code issues.  A fatal kernel BUG() is represented by a
distinguished result constructor, and the bounded-polling wait loop is
given explicit fuel, with fuel exhaustion meaning the loop is still
running after that many slices.
-/

/-- Truncating 32-bit subtraction: the value of the C expression a - b on
u32 operands (operands are first reduced mod 2^32). -/
def u32sub (a b : Nat) : Nat :=
  (a % 4294967296 + (4294967296 - b % 4294967296)) % 4294967296

/-- Signed reinterpretation of a 32-bit pattern, as in a C cast to s32. -/
def toS32 (n : Nat) : Int :=
  if n % 4294967296 < 2147483648 then (n % 4294967296 : Int)
  else (n % 4294967296 : Int) - 4294967296

/-- Software-visible state of struct nvhost_syncpt: the cached min and max
counter arrays.  The compile-time bitmask NVSYNCPTS_CLIENT_MANAGED comes
from headers that are not under src/, so it is carried as the clientMask
field of the state rather than as a global constant. -/
structure Syncpt where
  clientMask : Nat
  min_val : Nat → Nat
  max_val : Nat → Nat

/-- The client_managed(id) macro from the source:
BIT(id) & NVSYNCPTS_CLIENT_MANAGED. -/
def client_managed (mask id : Nat) : Bool := Nat.testBit mask id

/-- check_max from the source: client-managed ids always pass; otherwise
the test is (s32)(max - real) >= 0, i.e. the u32 difference max - real is
below 2^31. -/
def check_max (sp : Syncpt) (id real : Nat) : Bool :=
  if client_managed sp.clientMask id then true
  else u32sub (sp.max_val id) real < 2147483648

/-- Modelled from the spec: nvhost_syncpt_min_cmp is declared in
nvhost_syncpt.h, which is not under src/.  Per the spec, the fast path
asks whether the cached min_val already satisfies the threshold under the
wraparound-aware comparison, i.e. (s32)(min - thresh) >= 0. -/
def nvhost_syncpt_min_cmp (sp : Syncpt) (id thresh : Nat) : Bool :=
  u32sub (sp.min_val id) thresh < 2147483648

/-- Modelled from the spec: nvhost_syncpt_min_eq_max is declared in
nvhost_syncpt.h, which is not under src/.  It reports whether the cached
min has caught up to the cached max for the given id. -/
def nvhost_syncpt_min_eq_max (sp : Syncpt) (id : Nat) : Bool :=
  sp.min_val id == sp.max_val id

/-- Modelled from the spec: nvhost_syncpt_incr_max is declared in
nvhost_syncpt.h, which is not under src/.  It atomically adds the given
amount to the 32-bit max_val of the given id. -/
def nvhost_syncpt_incr_max (sp : Syncpt) (id incrs : Nat) : Syncpt :=
  { sp with
    max_val := fun j =>
      if j = id then (sp.max_val j + incrs) % 4294967296 else sp.max_val j }

/-- Modelled from the spec: HZ is the external kernel tick-rate constant;
the spec only says the check period is a fixed slice on the order of a
couple of seconds, so a common concrete tick rate is used. -/
def HZ : Nat := 100

/-- SYNCPT_CHECK_PERIOD = 2*HZ, the macro from the source. -/
def SYNCPT_CHECK_PERIOD : Nat := 2 * HZ

/-- Modelled from the spec: NVHOST_NO_TIMEOUT, the wait-forever sentinel,
is defined in driver headers that are not under src/ as the all-ones
32-bit value. -/
def NVHOST_NO_TIMEOUT : Nat := 4294967295

/-- Modelled from the spec: NV_HOST1X_SYNCPT_NB_PTS (the N_COUNTERS of the
spec) comes from headers not under src/; it equals the length of the fixed
name table in the source, 32. -/
def NV_HOST1X_SYNCPT_NB_PTS : Nat := 32

/-- One collaborator call issued by the embedded code, in program order. -/
inductive Ev where
  | moduleBusy
  | moduleIdle
  | hwRead (id : Nat)
  | cpuIncr (bits : Nat)
  | intrAdd (id thresh : Nat)
  | intrPut
  | waitSlice (jiffies : Nat)
deriving DecidableEq, Repr

/-- Result of a call that may hit a kernel BUG(): either the fatal abort
or an ordinary integer return value. -/
inductive WaitOutcome where
  | fatal
  | ret (err : Int)
deriving DecidableEq, Repr

/-- Oracle for the external behavior seen by one nvhost_syncpt_wait_timeout
call: the hardware value returned by the forced register read, the result
of nvhost_intr_add_action (0 on success), and the successive results of
wait_event_interruptible_timeout (positive: predicate satisfied; zero:
slice elapsed with predicate false; negative: interrupted). -/
structure WaitOracle where
  live : Nat
  addActionErr : Int
  waitRes : Nat → Int

/-- The while (timeout) polling loop of nvhost_syncpt_wait_timeout.  Each
iteration waits a slice of min(SYNCPT_CHECK_PERIOD, timeout); a nonzero
wait result breaks out; otherwise the code subtracts the full
SYNCPT_CHECK_PERIOD from timeout (in u32 arithmetic) unless timeout is the
NVHOST_NO_TIMEOUT sentinel.  Fuel bounds the number of iterations the
model unrolls; none means the loop is still running after that many
slices. -/
def wait_timeout_loop (waitRes : Nat → Int) :
    Nat → Nat → Nat → Option (Int × List Ev)
  | 0, _, _ => none
  | fuel + 1, i, timeout =>
    if timeout = 0 then some (0, [])
    else
      let check := min SYNCPT_CHECK_PERIOD timeout
      let e := waitRes i
      if e ≠ 0 then some (e, [Ev.waitSlice check])
      else
        let t2 := if timeout = NVHOST_NO_TIMEOUT then timeout
                  else u32sub timeout SYNCPT_CHECK_PERIOD
        match wait_timeout_loop waitRes fuel (i + 1) t2 with
        | none => none
        | some (e2, tr) => some (e2, Ev.waitSlice check :: tr)

/-- The tail of nvhost_syncpt_wait_timeout from the zero-timeout test
onward: the -EAGAIN early return, wake-action registration, the polling
loop, the final translation of the loop result (positive becomes 0, zero
becomes -EAGAIN = -11), the wake-action release, and the done: label that
drops the device-active claim. -/
def wait_timeout_rest (o : WaitOracle) (id thresh timeout fuel : Nat)
    (tr : List Ev) : Option (WaitOutcome × List Ev) :=
  if timeout = 0 then some (.ret (-11), tr ++ [Ev.moduleIdle])
  else if o.addActionErr ≠ 0 then
    some (.ret o.addActionErr, tr ++ [Ev.intrAdd id thresh, Ev.moduleIdle])
  else
    match wait_timeout_loop o.waitRes fuel 0 timeout with
    | none => none
    | some (e, ltr) =>
      let e2 : Int := if 0 < e then 0 else if e = 0 then -11 else e
      some (.ret e2,
        tr ++ [Ev.intrAdd id thresh] ++ ltr ++ [Ev.intrPut, Ev.moduleIdle])

/-- nvhost_syncpt_wait_timeout from the source: the check_max BUG_ON, the
cached fast path, the device-active acquisition, the conditional forced
hardware refresh (itself able to BUG in check_max and to satisfy the
threshold), then the rest of the protocol. -/
def nvhost_syncpt_wait_timeout (sp : Syncpt) (o : WaitOracle)
    (id thresh timeout fuel : Nat) : Option (WaitOutcome × List Ev) :=
  if !check_max sp id thresh then some (.fatal, [])
  else if nvhost_syncpt_min_cmp sp id thresh then some (.ret 0, [])
  else if client_managed sp.clientMask id || !nvhost_syncpt_min_eq_max sp id then
    if !check_max sp id o.live then some (.fatal, [Ev.moduleBusy, Ev.hwRead id])
    else if u32sub o.live thresh < 2147483648 then
      some (.ret 0, [Ev.moduleBusy, Ev.hwRead id, Ev.moduleIdle])
    else wait_timeout_rest o id thresh timeout fuel [Ev.moduleBusy, Ev.hwRead id]
  else wait_timeout_rest o id thresh timeout fuel [Ev.moduleBusy]

/-- nvhost_syncpt_cpu_incr from the source: a fatal BUG when the id is not
client managed and the cached min equals the cached max, otherwise a
single increment pulse write of BIT(id) to the CPU_INCR register. -/
def nvhost_syncpt_cpu_incr (sp : Syncpt) (id : Nat) : Option (List Ev) :=
  if !client_managed sp.clientMask id && nvhost_syncpt_min_eq_max sp id then
    none
  else some [Ev.cpuIncr (2 ^ id)]

/-- nvhost_syncpt_incr from the source: first nvhost_syncpt_incr_max by 1,
then nvhost_syncpt_cpu_incr inside a module busy / idle scope. -/
def nvhost_syncpt_incr (sp : Syncpt) (id : Nat) :
    Option (Syncpt × List Ev) :=
  let sp1 := nvhost_syncpt_incr_max sp id 1
  match nvhost_syncpt_cpu_incr sp1 id with
  | none => none
  | some tr => some (sp1, Ev.moduleBusy :: tr ++ [Ev.moduleIdle])

/-- nvhost_syncpt_is_between from the source: b - a < c - a in u32
arithmetic, i.e. a <= b < c with wraparound. -/
def nvhost_syncpt_is_between (a b c : Nat) : Bool :=
  u32sub b a < u32sub c a

/-- nvhost_syncpt_wrapping_comparison from the source:
is_between(y, x, (1 shl 31) + y), the third argument truncated to u32. -/
def nvhost_syncpt_wrapping_comparison (x y : Nat) : Bool :=
  nvhost_syncpt_is_between y x ((2147483648 + y) % 4294967296)

/-- One nvhost_waitchk descriptor: a counter id, a threshold, and the
buffer handle and offset of the wait instruction to patch. -/
structure Waitchk where
  syncpt_id : Nat
  thresh : Nat
  mem : Nat
  offset : Nat
deriving DecidableEq, Repr

/-- The descriptor loop of nvhost_syncpt_wait_check: for each descriptor,
BUG when syncpt_id > NV_HOST1X_SYNCPT_NB_PTS (note: strictly greater),
read the cached min of that id, and when the wrapping comparison says the
threshold is already reached, patch the wait via the external patcher;
a nonzero patch result breaks out of the loop and is returned.  Returns
the final err together with the descriptors successfully patched, in
order; none models the fatal BUG. -/
def wait_check_loop (minv : Nat → Nat) (patch : Waitchk → Int) :
    List Waitchk → Option (Int × List Waitchk)
  | [] => some (0, [])
  | w :: ws =>
    if NV_HOST1X_SYNCPT_NB_PTS < w.syncpt_id then none
    else if nvhost_syncpt_wrapping_comparison (minv w.syncpt_id) w.thresh then
      if patch w ≠ 0 then some (patch w, [])
      else
        match wait_check_loop minv patch ws with
        | none => none
        | some (e, ps) => some (e, w :: ps)
    else wait_check_loop minv patch ws

/-- The min array after the refresh pass of nvhost_syncpt_wait_check: ids
below NV_HOST1X_SYNCPT_NB_PTS whose bit is set in the mask take the fresh
hardware value, all others keep the cached value. -/
def refreshed_min (sp : Syncpt) (live : Nat → Nat) (mask : Nat) :
    Nat → Nat :=
  fun i =>
    if i < NV_HOST1X_SYNCPT_NB_PTS ∧ Nat.testBit mask i then live i
    else sp.min_val i

/-- nvhost_syncpt_wait_check from the source: first refresh min_val for
exactly the counters flagged in the mask (each refresh can BUG in
check_max against the fresh hardware value), then run the descriptor
loop over the refreshed min array. -/
def nvhost_syncpt_wait_check (sp : Syncpt) (live : Nat → Nat)
    (patch : Waitchk → Int) (waitchk_mask : Nat) (waits : List Waitchk) :
    Option (Int × List Waitchk) :=
  if (List.range NV_HOST1X_SYNCPT_NB_PTS).any
      (fun i => Nat.testBit waitchk_mask i && !check_max sp i (live i)) then
    none
  else wait_check_loop (refreshed_min sp live waitchk_mask) patch waits

/-- The descriptors of a list whose threshold the (refreshed) cached min
already satisfies under the wrapping comparison: exactly those the loop
tries to patch, in list order. -/
def staleEntries (minv : Nat → Nat) (ws : List Waitchk) : List Waitchk :=
  ws.filter (fun w =>
    nvhost_syncpt_wrapping_comparison (minv w.syncpt_id) w.thresh)

/-- The error nvhost_syncpt_wait_check reports: the patch result of the
first stale descriptor whose patch fails, or 0 when every patch succeeds. -/
def firstPatchError (patch : Waitchk → Int) (stale : List Waitchk) : Int :=
  match stale.find? (fun w => decide (patch w ≠ 0)) with
  | some w => patch w
  | none => 0

/-- The fixed diagnostic name table s_syncpt_names from the source
(32 entries, empty string for unassigned ids). -/
def s_syncpt_names : List String :=
  [("gfx_host"), (""), (""), (""), (""), (""), (""), (""), (""), (""),
   (""), (""),
   ("vi_isp_0"), ("vi_isp_1"), ("vi_isp_2"), ("vi_isp_3"), ("vi_isp_4"),
   ("vi_isp_5"),
   ("2d_0"), ("2d_1"),
   (""), (""),
   ("3d"), ("mpe"), ("disp0"), ("disp1"), ("vblank0"), ("vblank1"),
   ("mpe_ebm_eof"), ("mpe_wr_safe"),
   ("2d_tinyblt"), ("dsi")]

/-- Result of the name lookup: the fatal BUG, an out-of-bounds table
access (undefined behavior in the C source), or the looked-up name. -/
inductive NameResult where
  | fatal
  | outOfBounds
  | name (s : String)
deriving DecidableEq, Repr

/-- nvhost_syncpt_name from the source: BUG when id > ARRAY_SIZE of the
name table (strictly greater), then an unguarded index into the table;
the index equal to the length is therefore an out-of-bounds access. -/
def nvhost_syncpt_name (id : Nat) : NameResult :=
  if s_syncpt_names.length < id then .fatal
  else
    match s_syncpt_names.get? id with
    | some s => .name s
    | none => .outOfBounds

/-- A registry state used by concrete runs: nothing client managed, cached
min 0 and cached max 10 on every id. -/
def spA : Syncpt := ⟨0, fun _ => 0, fun _ => 10⟩

/-- A registry state whose cached min 7 already satisfies threshold 5. -/
def spB : Syncpt := ⟨0, fun _ => 7, fun _ => 9⟩

/-- A non-client-managed registry state with cached min = max = 0. -/
def spC : Syncpt := ⟨0, fun _ => 0, fun _ => 0⟩

/-- A registry state where id 3 is client managed, min = max = 0. -/
def spD : Syncpt := ⟨8, fun _ => 0, fun _ => 0⟩

/-- A registry state with cached min 10 everywhere, for wait-check runs. -/
def spE : Syncpt := ⟨0, fun _ => 10, fun _ => 10⟩

/-- Oracle: hardware reads 1, wake registration succeeds, every wait slice
elapses with the predicate still false. -/
def oTimeout : WaitOracle := ⟨1, 0, fun _ => 0⟩

/-- Oracle: hardware reads 1, wake registration succeeds, the first wait
slice is interrupted by a signal (-ERESTARTSYS = -512). -/
def oIntr : WaitOracle := ⟨1, 0, fun _ => -512⟩

/-- Oracle: hardware reads 1 and wake registration fails with -22
(-EINVAL). -/
def oFail : WaitOracle := ⟨1, -22, fun _ => 0⟩

/-- A stale wait descriptor: threshold 5 is already passed by min 10. -/
def wStale : Waitchk := ⟨0, 5, 100, 4⟩

/-- A pending wait descriptor: threshold 20 is not yet reached by min 10. -/
def wPending : Waitchk := ⟨0, 20, 100, 8⟩

/-- Helper: the wrapping comparison of the source is exactly membership of
x in the half-open window starting at y, i.e. the u32 difference x - y is
below 2^31. -/
theorem wrapping_comparison_iff (x y : Nat) :
    nvhost_syncpt_wrapping_comparison x y = true ↔
      u32sub x y < 2147483648 := by
  unfold nvhost_syncpt_wrapping_comparison nvhost_syncpt_is_between u32sub
  simp only [decide_eq_true_eq]
  omega

/-- Claim C1: for all 32-bit values x and y,
nvhost_syncpt_wrapping_comparison x y is true exactly when the signed
32-bit interpretation of the u32 difference x - y is nonnegative, i.e. x
has reached or passed y in circular 32-bit arithmetic. -/
theorem wrapping_comparison_signed (x y : Nat)
    (hx : x < 4294967296) (hy : y < 4294967296) :
    nvhost_syncpt_wrapping_comparison x y = true ↔
      0 ≤ toS32 (u32sub x y) := by
  rw [wrapping_comparison_iff]
  unfold toS32 u32sub
  split <;> omega

/-- Witness for C1 at x = 5, y = 3. -/
theorem wrapping_comparison_signed_witness :
    nvhost_syncpt_wrapping_comparison 5 3 = true ∧ 0 ≤ toS32 (u32sub 5 3) :=
  ⟨(wrapping_comparison_signed 5 3 (by decide) (by decide)).mpr (by decide),
   (wrapping_comparison_signed 5 3 (by decide) (by decide)).mp (by decide)⟩

/-- Counterexample to claim C2: the claim as stated fails on the code.
The concrete case of the claim with x = 0xFFFFFFF0 and y = 5 evaluates to
false, not true; and at x = 5, y = 3 the comparison is true although y
does not lie in the window of length 2^31 starting at x (the u32
difference y - x is not below 2^31), refuting the claimed iff. -/
theorem wrapping_comparison_window_cex :
    nvhost_syncpt_wrapping_comparison 4294967280 5 = false ∧
    nvhost_syncpt_wrapping_comparison 5 3 = true ∧
    ¬ u32sub 3 5 < 2147483648 := by
  refine ⟨by decide, by decide, by decide⟩

/-- Claim C2 (amended): nvhost_syncpt_wrapping_comparison x y is true iff
x lies in the half-open window of length 2^31 starting at y, modulo 2^32
(the window roles of x and y are swapped relative to the original claim);
the concrete cases are wrapping_comparison 5 3 = true,
wrapping_comparison 3 5 = false, wrapping_comparison 0xFFFFFFF0 5 = false
(x is behind y there, y being 21 ticks ahead across the wrap), and
conversely wrapping_comparison 5 0xFFFFFFF0 = true. -/
theorem wrapping_comparison_window_amended :
    (∀ x y, x < 4294967296 → y < 4294967296 →
        (nvhost_syncpt_wrapping_comparison x y = true ↔
          u32sub x y < 2147483648)) ∧
    nvhost_syncpt_wrapping_comparison 5 3 = true ∧
    nvhost_syncpt_wrapping_comparison 3 5 = false ∧
    nvhost_syncpt_wrapping_comparison 4294967280 5 = false ∧
    nvhost_syncpt_wrapping_comparison 5 4294967280 = true := by
  refine ⟨fun x y _ _ => wrapping_comparison_iff x y,
    by decide, by decide, by decide, by decide⟩

/-- Witness for the amended C2 at x = 9, y = 7. -/
theorem wrapping_comparison_window_amended_witness :
    nvhost_syncpt_wrapping_comparison 9 7 = true :=
  (wrapping_comparison_window_amended.1 9 7 (by decide) (by decide)).mpr
    (by decide)

/-- Claim C3 (code bug evidence): the loop body subtracts the full
SYNCPT_CHECK_PERIOD (= 200 here) from the remaining timeout instead of
the slice min(SYNCPT_CHECK_PERIOD, timeout) it actually waited, so a
timeout of 100 underflows to 4294967196 after one iteration and the loop
is still running after 50 slices (none), instead of timing out after its
single 100-jiffy slice; a timeout that is an exact multiple of the
period, such as 400, does time out after timeout/period slices. -/
theorem wait_loop_decrement_bug :
    u32sub 100 SYNCPT_CHECK_PERIOD = 4294967196 ∧
    wait_timeout_loop (fun _ => 0) 50 0 100 = none ∧
    wait_timeout_loop (fun _ => 0) 3 0 400 =
      some (0, [Ev.waitSlice 200, Ev.waitSlice 200]) := by
  refine ⟨by decide, by decide, by decide⟩

/-- Claim C4: when the precondition check passes and the cached min
already satisfies the threshold under the wraparound comparison, the wait
returns success (0) with an empty collaborator trace: no hardware read,
no device-active acquisition, no wake-action registration, for every
timeout and fuel. -/
theorem wait_fast_path (sp : Syncpt) (o : WaitOracle)
    (id thresh timeout fuel : Nat)
    (hmax : check_max sp id thresh = true)
    (hmin : nvhost_syncpt_min_cmp sp id thresh = true) :
    nvhost_syncpt_wait_timeout sp o id thresh timeout fuel =
      some (.ret 0, []) := by
  simp [nvhost_syncpt_wait_timeout, hmax, hmin]

/-- Witness for C4: cached min 7 already satisfies threshold 5. -/
theorem wait_fast_path_witness :
    nvhost_syncpt_wait_timeout spB oTimeout 0 5 77 1 = some (.ret 0, []) :=
  wait_fast_path spB oTimeout 0 5 77 1 (by decide) (by decide)

/-- Claim C5: with a zero timeout, an unsatisfied cached predicate, the
hardware-refresh branch taken and the refreshed value still below the
threshold, the wait returns -EAGAIN (-11) immediately: the trace has no
wake-action registration and no wait slice, and ends with the
device-active release. -/
theorem wait_zero_timeout (sp : Syncpt) (o : WaitOracle)
    (id thresh fuel : Nat)
    (hmax : check_max sp id thresh = true)
    (hmin : nvhost_syncpt_min_cmp sp id thresh = false)
    (hbr : (client_managed sp.clientMask id ||
        !nvhost_syncpt_min_eq_max sp id) = true)
    (hlmax : check_max sp id o.live = true)
    (hlive : ¬ u32sub o.live thresh < 2147483648) :
    nvhost_syncpt_wait_timeout sp o id thresh 0 fuel =
      some (.ret (-11), [Ev.moduleBusy, Ev.hwRead id, Ev.moduleIdle]) := by
  simp [nvhost_syncpt_wait_timeout, wait_timeout_rest, hmax, hmin, hbr,
    hlmax, hlive]

/-- Witness for C5: min 0, max 10, threshold 3, refreshed value 1. -/
theorem wait_zero_timeout_witness :
    nvhost_syncpt_wait_timeout spA oTimeout 0 3 0 1 =
      some (.ret (-11), [Ev.moduleBusy, Ev.hwRead 0, Ev.moduleIdle]) :=
  wait_zero_timeout spA oTimeout 0 3 1 (by decide) (by decide) (by decide)
    (by decide) (by decide)

/-- Counterexample to claim C6: the would-block outcome (zero timeout,
unsatisfied predicate) and the timed-out outcome (finite timeout
exhausted) are the same return value, -EAGAIN (-11), so the three
recoverable outcomes are not pairwise distinguishable. -/
theorem wait_outcomes_cex :
    (nvhost_syncpt_wait_timeout spA oTimeout 0 3 0 1).map Prod.fst =
      (nvhost_syncpt_wait_timeout spA oTimeout 0 3 400 5).map Prod.fst ∧
    (nvhost_syncpt_wait_timeout spA oTimeout 0 3 0 1).map Prod.fst =
      some (WaitOutcome.ret (-11)) := by
  refine ⟨by decide, by decide⟩

/-- Claim C6 (amended): the interrupted outcome (-ERESTARTSYS = -512) is
distinguishable from the other two, but the would-block and timed-out
outcomes both return -EAGAIN (-11) and cannot be told apart from the
return value alone. -/
theorem wait_outcomes_amended :
    (nvhost_syncpt_wait_timeout spA oIntr 0 3 400 5).map Prod.fst =
      some (WaitOutcome.ret (-512)) ∧
    (nvhost_syncpt_wait_timeout spA oTimeout 0 3 0 1).map Prod.fst =
      some (WaitOutcome.ret (-11)) ∧
    (nvhost_syncpt_wait_timeout spA oTimeout 0 3 400 5).map Prod.fst =
      some (WaitOutcome.ret (-11)) ∧
    WaitOutcome.ret (-512) ≠ WaitOutcome.ret (-11) := by
  refine ⟨by decide, by decide, by decide, by decide⟩

/-- Claim C7: nvhost_syncpt_incr bumps max_val of the id by exactly 1 mod
2^32 and its trace is the increment pulse bracketed by the device-active
acquire and release; nvhost_syncpt_cpu_incr is fatal exactly for a
non-client-managed id whose cached min equals its cached max, never
fatally rejects a client-managed id and then writes the single pulse
BIT(id); and because the max increment happens before the pulse, incr on
a non-client id with min = max does not hit the fatal check. -/
theorem incr_cpu_incr_spec (sp : Syncpt) (id : Nat) :
    (∀ sp1 tr, nvhost_syncpt_incr sp id = some (sp1, tr) →
        sp1.max_val id = (sp.max_val id + 1) % 4294967296 ∧
        tr = [Ev.moduleBusy, Ev.cpuIncr (2 ^ id), Ev.moduleIdle]) ∧
    (client_managed sp.clientMask id = false →
        nvhost_syncpt_min_eq_max sp id = true →
        nvhost_syncpt_cpu_incr sp id = none) ∧
    (client_managed sp.clientMask id = true →
        nvhost_syncpt_cpu_incr sp id = some [Ev.cpuIncr (2 ^ id)]) ∧
    (client_managed sp.clientMask id = false →
        sp.min_val id = sp.max_val id →
        sp.max_val id < 4294967296 →
        nvhost_syncpt_incr sp id ≠ none) := by
  refine ⟨?_, ?_, ?_, ?_⟩
  · intro sp1 tr h
    simp only [nvhost_syncpt_incr] at h
    split at h
    · exact absurd h (by simp)
    · next tr2 heq =>
      simp only [nvhost_syncpt_cpu_incr] at heq
      split at heq
      · exact absurd heq (by simp)
      · rw [Option.some_inj] at heq
        subst heq
        rw [Option.some_inj] at h
        injection h with h1 h2
        subst h1
        subst h2
        constructor
        · simp [nvhost_syncpt_incr_max]
        · rfl
  · intro h1 h2
    simp [nvhost_syncpt_cpu_incr, h1, h2]
  · intro h1
    simp [nvhost_syncpt_cpu_incr, h1]
  · intro h1 h2 h3
    have hne : sp.max_val id ≠ (sp.max_val id + 1) % 4294967296 := by omega
    simp [nvhost_syncpt_incr, nvhost_syncpt_cpu_incr, nvhost_syncpt_incr_max,
      nvhost_syncpt_min_eq_max, h1, h2, hne]

/-- Witness for C7: a non-client id with min = max is fatal for the bare
cpu increment, a client-managed id is not, and the composed increment on
the same non-client state is not fatal. -/
theorem incr_cpu_incr_spec_witness :
    nvhost_syncpt_cpu_incr spC 3 = none ∧
    nvhost_syncpt_cpu_incr spD 3 = some [Ev.cpuIncr (2 ^ 3)] ∧
    nvhost_syncpt_incr spC 3 ≠ none :=
  ⟨(incr_cpu_incr_spec spC 3).2.1 (by decide) (by decide),
   (incr_cpu_incr_spec spD 3).2.2.1 (by decide),
   (incr_cpu_incr_spec spC 3).2.2.2 (by decide) rfl (by decide)⟩

/-- Helper: the descriptor loop of wait_check, on a list whose ids all
pass the fatal guard, returns the patch error of the first stale
descriptor whose patch fails (0 when none fails), together with the stale
descriptors processed before that failure, in list order. -/
theorem wait_check_loop_eq (minv : Nat → Nat) (patch : Waitchk → Int)
    (ws : List Waitchk)
    (h : ∀ w ∈ ws, w.syncpt_id ≤ NV_HOST1X_SYNCPT_NB_PTS) :
    wait_check_loop minv patch ws =
      some (firstPatchError patch (staleEntries minv ws),
        (staleEntries minv ws).takeWhile (fun w => decide (patch w = 0))) := by
  induction ws with
  | nil => simp [wait_check_loop, staleEntries, firstPatchError]
  | cons w ws ih =>
    have hw : ¬ NV_HOST1X_SYNCPT_NB_PTS < w.syncpt_id := by
      have := h w (by simp)
      omega
    have ih2 := ih (fun x hx => h x (by simp [hx]))
    by_cases hc :
        nvhost_syncpt_wrapping_comparison (minv w.syncpt_id) w.thresh = true
    · by_cases hp : patch w = 0
      · simp [wait_check_loop, hw, hc, hp, ih2, staleEntries, firstPatchError,
          List.filter_cons, List.find?_cons, List.takeWhile_cons]
      · simp [wait_check_loop, hw, hc, hp, staleEntries, firstPatchError,
          List.filter_cons, List.find?_cons, List.takeWhile_cons]
    · simp [wait_check_loop, hw, hc, ih2, staleEntries, List.filter_cons]

/-- Claim C8: when every descriptor id passes the guard and the refresh
pass hits no fatal invariant violation, nvhost_syncpt_wait_check first
refreshes min for exactly the mask-flagged counters (refreshed_min), then
processes descriptors in order, patching a descriptor exactly when the
refreshed cached min of its counter has reached its threshold under the
wrapping comparison; the first patch failure is returned with processing
stopped, earlier successful patches stay applied, and a run without patch
failure returns 0. -/
theorem wait_check_spec (sp : Syncpt) (live : Nat → Nat)
    (patch : Waitchk → Int) (mask : Nat) (ws : List Waitchk)
    (hguard : ∀ w ∈ ws, w.syncpt_id ≤ NV_HOST1X_SYNCPT_NB_PTS)
    (hok : ((List.range NV_HOST1X_SYNCPT_NB_PTS).any
        (fun i => Nat.testBit mask i && !check_max sp i (live i))) = false) :
    nvhost_syncpt_wait_check sp live patch mask ws =
      some
        (firstPatchError patch (staleEntries (refreshed_min sp live mask) ws),
        (staleEntries (refreshed_min sp live mask) ws).takeWhile
          (fun w => decide (patch w = 0))) := by
  unfold nvhost_syncpt_wait_check
  rw [hok]
  simpa using wait_check_loop_eq (refreshed_min sp live mask) patch ws hguard

/-- Witness for C8, the concrete case of the spec: one stale descriptor
(threshold 5, cached min 10) is patched, the pending one (threshold 20)
is left untouched, and the run reports no error. -/
theorem wait_check_spec_witness :
    nvhost_syncpt_wait_check spE (fun _ => 0) (fun _ => 0) 0
      [wStale, wPending] = some (0, [wStale]) := by
  have h := wait_check_spec spE (fun _ => 0) (fun _ => 0) 0
    [wStale, wPending] (by decide) (by decide)
  rw [h]
  decide

/-- Claim C9 (code bug evidence): the guards of the name lookup and of the
wait-check descriptor loop use strictly-greater comparisons, so the
boundary id 32 = NV_HOST1X_SYNCPT_NB_PTS, which is outside the valid
range, is not fatally rejected: the name lookup falls through to an
out-of-bounds access of the 32-entry table, and the descriptor loop
processes the descriptor instead of aborting; id 33 is rejected, and
every in-range id returns its fixed table entry, for example id 31. -/
theorem syncpt_id_guard_off_by_one :
    nvhost_syncpt_name 32 = NameResult.outOfBounds ∧
    nvhost_syncpt_name 31 = NameResult.name ("dsi") ∧
    nvhost_syncpt_name 33 = NameResult.fatal ∧
    wait_check_loop (fun _ => 0) (fun _ => 0) [⟨32, 2147483648, 0, 0⟩] =
      some (0, []) := by
  refine ⟨by decide, by decide, by decide, by decide⟩

/-- Claim C10: when the cached predicate is unsatisfied, the refresh
branch is taken without satisfying the threshold, the timeout is nonzero
and the wake-action registration fails, the wait returns that
registration error; its trace shows no wait slice (the blocking loop is
never entered), no wake-registration release for the handle that was
never obtained, and the device-active claim released on exit. -/
theorem wait_add_action_fail (sp : Syncpt) (o : WaitOracle)
    (id thresh timeout fuel : Nat)
    (hmax : check_max sp id thresh = true)
    (hmin : nvhost_syncpt_min_cmp sp id thresh = false)
    (hbr : (client_managed sp.clientMask id ||
        !nvhost_syncpt_min_eq_max sp id) = true)
    (hlmax : check_max sp id o.live = true)
    (hlive : ¬ u32sub o.live thresh < 2147483648)
    (ht : timeout ≠ 0)
    (herr : o.addActionErr ≠ 0) :
    nvhost_syncpt_wait_timeout sp o id thresh timeout fuel =
      some (.ret o.addActionErr,
        [Ev.moduleBusy, Ev.hwRead id, Ev.intrAdd id thresh,
         Ev.moduleIdle]) := by
  simp [nvhost_syncpt_wait_timeout, wait_timeout_rest, hmax, hmin, hbr,
    hlmax, hlive, ht, herr]

/-- Witness for C10: registration fails with -22 on a state whose cached
min 0 does not reach threshold 3. -/
theorem wait_add_action_fail_witness :
    nvhost_syncpt_wait_timeout spA oFail 0 3 1000 1 =
      some (.ret (-22),
        [Ev.moduleBusy, Ev.hwRead 0, Ev.intrAdd 0 3, Ev.moduleIdle]) :=
  wait_add_action_fail spA oFail 0 3 1000 1 (by decide) (by decide)
    (by decide) (by decide) (by decide) (by decide) (by decide)
